import Mathlib

/-!
# Verification of the PROCESS superconducting TF-coil core

Shallow embedding of `src/process/superconducting_tf_coil.py`:
the quench-protection sizer `protect`, the conductor evaluation
routine `supercon` (with the external `superconductors` correlation
library kept abstract, since its source is not part of this
repository snapshot), the scipy secant root-finder it drives, and the
inductive quench-stress model `vv_stress_on_quench`.

Python machine floats are embedded as real numbers; Python's
fallible operations (list indexing, raised exceptions) are embedded
with `Option`/`Except`.
-/

set_option maxHeartbeats 1600000

namespace Process

/-- Python `int(x)` on a float: truncation toward zero. -/
noncomputable def pyInt (x : ℝ) : ℤ := if 0 ≤ x then ⌊x⌋ else -⌊-x⌋

/-- Python list indexing `l[i]`: nonnegative indices from the front,
negative indices wrap from the back, anything else is an `IndexError`
(`none`). -/
def pyGet (l : List ℝ) (i : ℤ) : Option ℝ :=
  if 0 ≤ i then l.get? i.toNat
  else if 0 ≤ (l.length : ℤ) + i then l.get? ((l.length : ℤ) + i).toNat
  else none

/-- Integration coefficient table `p1` of `protect`. -/
def p1 : List ℝ :=
  [0, 0.8, 1.75, 2.4, 2.7, 2.95, 3.1, 3.2, 3.3, 3.4, 3.5]

/-- Integration coefficient table `p2` of `protect`. -/
def p2 : List ℝ :=
  [0, 0.05, 0.5, 1.4, 2.6, 3.7, 4.6, 5.3, 5.95, 6.55, 7.1]

/-- Integration coefficient table `p3` of `protect`. -/
def p3 : List ℝ :=
  [0, 0.05, 0.5, 1.4, 2.6, 3.7, 4.6, 5.4, 6.05, 6.8, 7.2]

/-- `SuperconductingTFCoil.protect` (superconducting_tf_coil.py, lines
1454-1538).  Returns `(ajwpro, vd)`; `none` models the `IndexError`
raised by a table access outside the 11-entry coefficient lists. -/
noncomputable def protect (aio tfes acs aturn tdump fcond fcu tba tmax : ℝ) :
    Option (ℝ × ℝ) := do
  let vd := 2 * tfes / (tdump * aio)
  let tav := 1 + (tmax - tba) / 20
  let n_o := pyInt tav
  let n_p := min (n_o + 1) 11
  let a1 ← pyGet p1 (n_o - 1)
  let b1 ← pyGet p1 (n_p - 1)
  let a2 ← pyGet p2 (n_o - 1)
  let b2 ← pyGet p2 (n_p - 1)
  let a3 ← pyGet p3 (n_o - 1)
  let b3 ← pyGet p3 (n_p - 1)
  let ai1 := 1e16 * (a1 + (b1 - a1) * (tav - (n_o : ℝ)))
  let ai2 := 1e16 * (a2 + (b2 - a2) * (tav - (n_o : ℝ)))
  let ai3 := 1e16 * (a3 + (b3 - a3) * (tav - (n_o : ℝ)))
  let aa := vd * aio / tfes
  let bb := (1 - fcond) * fcond * fcu * ai1
  let cc := (fcu * fcond) ^ 2 * ai2
  let dd := (1 - fcu) * fcu * fcond ^ 2 * ai3
  let ajcp := Real.sqrt (aa * (bb + cc + dd))
  pure (ajcp * (acs / aturn), vd)

/-- A Python list access with a nonnegative in-range index succeeds. -/
lemma pyGet_some (l : List ℝ) (i : ℤ) (h0 : 0 ≤ i) (h1 : i < l.length) :
    ∃ x, pyGet l i = some x := by
  unfold pyGet
  rw [if_pos h0]
  have hn : i.toNat < l.length := by omega
  exact ⟨l.get ⟨i.toNat, hn⟩, List.get?_eq_get hn⟩

/-- Generic fact: whenever `protect` returns, the returned dump voltage is
`2 * tfes / (tdump * aio)`. -/
lemma protect_snd_eq (aio tfes acs aturn tdump fcond fcu tba tmax : ℝ) (r : ℝ × ℝ)
    (h : protect aio tfes acs aturn tdump fcond fcu tba tmax = some r) :
    r.2 = 2 * tfes / (tdump * aio) := by
  simp only [protect, Option.pure_def, Option.bind_eq_bind, Option.bind_eq_some,
    Option.some_inj] at h
  obtain ⟨a1, e1, b1, f1, a2, e2, b2, f2, a3, e3, b3, f3, hr⟩ := h
  rw [← hr]

/-- C2 counterexample: the temperature-rise index of `protect` is NOT clamped
to `[1, 11]`.  At helium temperature 4 K and maximum quench temperature 244 K
the index is `1 + 240/20 = 13`, the lower table access `p1[12]` is out of the
11-entry table, and `protect` fails with an `IndexError` instead of clamping. -/
theorem protect_index_out_of_range :
    protect 1 1 1 1 1 1 0 4 244 = none := by
  have h13 : pyInt (1 + (244 - 4) / 20) - 1 = 12 := by
    unfold pyInt
    rw [if_pos (by norm_num : (0:ℝ) ≤ 1 + (244 - 4) / 20)]
    norm_num
  simp [protect, h13, (show pyGet p1 12 = none from rfl)]

/-- C2 (amended): only the upper bracketing index `n_p` of `protect` is
clamped (to at most 11).  The three 11-point coefficient-table lookups are
all in range whenever the temperature rise `tmax - tba` lies in `[0, 220)`
(that is, whenever the index `1 + (tmax - tba)/20` lies in `[1, 12)`);
for larger rises the lookup raises `IndexError`, and for negative rises
Python's negative-index wraparound silently reads entries from the far end
of the tables. -/
theorem protect_lookup_in_range (aio tfes acs aturn tdump fcond fcu tba tmax : ℝ)
    (hlo : 0 ≤ tmax - tba) (hhi : tmax - tba < 220) :
    (protect aio tfes acs aturn tdump fcond fcu tba tmax).isSome = true := by
  have htav0 : (0:ℝ) ≤ 1 + (tmax - tba) / 20 := by linarith
  have hint : pyInt (1 + (tmax - tba) / 20) = ⌊(1 + (tmax - tba) / 20 : ℝ)⌋ := by
    unfold pyInt; rw [if_pos htav0]
  have hlow : (1:ℤ) ≤ pyInt (1 + (tmax - tba) / 20) := by
    rw [hint]; exact Int.le_floor.mpr (by push_cast; linarith)
  have hhigh : pyInt (1 + (tmax - tba) / 20) ≤ 11 := by
    rw [hint]
    have h12 : ⌊(1 + (tmax - tba) / 20 : ℝ)⌋ < 12 :=
      Int.floor_lt.mpr (by push_cast; linarith)
    omega
  simp only [protect]
  generalize hn : pyInt (1 + (tmax - tba) / 20) = n at hlow hhigh ⊢
  have l1 : ((p1.length : ℤ)) = 11 := by rfl
  have l2 : ((p2.length : ℤ)) = 11 := by rfl
  have l3 : ((p3.length : ℤ)) = 11 := by rfl
  obtain ⟨x1, e1⟩ := pyGet_some p1 (n - 1) (by omega) (by rw [l1]; omega)
  obtain ⟨y1, f1⟩ := pyGet_some p1 (min (n + 1) 11 - 1) (by omega) (by rw [l1]; omega)
  obtain ⟨x2, e2⟩ := pyGet_some p2 (n - 1) (by omega) (by rw [l2]; omega)
  obtain ⟨y2, f2⟩ := pyGet_some p2 (min (n + 1) 11 - 1) (by omega) (by rw [l2]; omega)
  obtain ⟨x3, e3⟩ := pyGet_some p3 (n - 1) (by omega) (by rw [l3]; omega)
  obtain ⟨y3, f3⟩ := pyGet_some p3 (min (n + 1) 11 - 1) (by omega) (by rw [l3]; omega)
  simp [e1, f1, e2, f2, e3, f3]

/-- C2 witness: a concrete in-range call (temperature rise 100 K). -/
theorem protect_lookup_in_range_witness :
    (protect 1 1 1 1 1 1 0 4 104).isSome = true :=
  protect_lookup_in_range 1 1 1 1 1 1 0 4 104 (by norm_num) (by norm_num)

/-- Evaluation of `protect` at a concrete in-range input (all-zero copper
fraction makes the quench integral vanish). -/
lemma protect_eval_1 : protect 1 1 1 1 1 (1/2) 0 4 104 = some (0, 2) := by
  have h6 : pyInt (1 + (104 - 4) / 20) = 6 := by
    unfold pyInt
    rw [if_pos (by norm_num : (0:ℝ) ≤ 1 + (104 - 4) / 20)]
    norm_num
  simp only [protect, h6]
  norm_num [(show pyGet p1 5 = some 2.95 from rfl), (show pyGet p1 6 = some 3.1 from rfl),
    (show pyGet p2 5 = some 3.7 from rfl), (show pyGet p2 6 = some 4.6 from rfl),
    (show pyGet p3 5 = some 3.7 from rfl), (show pyGet p3 6 = some 4.6 from rfl)]

/-- Evaluation of `protect` at the same input with the dump time doubled. -/
lemma protect_eval_2 : protect 1 1 1 1 (2 * 1) (1/2) 0 4 104 = some (0, 1) := by
  have h6 : pyInt (1 + (104 - 4) / 20) = 6 := by
    unfold pyInt
    rw [if_pos (by norm_num : (0:ℝ) ≤ 1 + (104 - 4) / 20)]
    norm_num
  simp only [protect, h6]
  norm_num [(show pyGet p1 5 = some 2.95 from rfl), (show pyGet p1 6 = some 3.1 from rfl),
    (show pyGet p2 5 = some 3.7 from rfl), (show pyGet p2 6 = some 4.6 from rfl),
    (show pyGet p3 5 = some 3.7 from rfl), (show pyGet p3 6 = some 4.6 from rfl)]

/-- C6: whenever `protect` returns, the dump voltage it returns is exactly
`2 * tfes / (tdump * aio)`; consequently, doubling the dump time (holding the
stored energy and operating current fixed) halves the returned dump voltage. -/
theorem protect_dump_voltage (aio tfes acs aturn tdump fcond fcu tba tmax : ℝ)
    (r r' : ℝ × ℝ)
    (h : protect aio tfes acs aturn tdump fcond fcu tba tmax = some r)
    (h' : protect aio tfes acs aturn (2 * tdump) fcond fcu tba tmax = some r') :
    r.2 = 2 * tfes / (tdump * aio) ∧ r'.2 = r.2 / 2 := by
  have hv := protect_snd_eq aio tfes acs aturn tdump fcond fcu tba tmax r h
  have hv' := protect_snd_eq aio tfes acs aturn (2 * tdump) fcond fcu tba tmax r' h'
  refine ⟨hv, ?_⟩
  rw [hv, hv', show (2 * tdump) * aio = (tdump * aio) * 2 by ring, ← div_div]

/-- C6 witness: at stored energy 1 J, dump time 1 s, current 1 A the dump
voltage is 2 V, and doubling the dump time gives 1 V. -/
theorem protect_dump_voltage_witness :
    ((0:ℝ), (2:ℝ)).2 = 2 * 1 / (1 * 1) ∧ ((0:ℝ), (1:ℝ)).2 = ((0:ℝ), (2:ℝ)).2 / 2 :=
  protect_dump_voltage 1 1 1 1 1 (1/2) 0 4 104 (0, 2) (0, 1) protect_eval_1 protect_eval_2

/-! ## The scipy secant root-finder driven by `supercon`

`supercon` calls `scipy.optimize.newton` with `fprime=None` and an explicit
second trial point `x1`, which selects scipy's secant iteration, and with
`disp=True`, which makes scipy raise `RuntimeError` on non-convergence. -/

/-- Errors raised by `scipy.optimize.newton` (secant branch, `disp=True`):
`badSeed` is the `ValueError` for `x1 == x0`, `tolReached` the
`RuntimeError` raised when the two bracketing function values coincide at
distinct points, `maxIter` the `RuntimeError` raised when `maxiter`
iterations pass without meeting the tolerance. -/
inductive NewtonErr where
  | badSeed
  | tolReached
  | maxIter
deriving DecidableEq

/-- Modelled from the spec: the body of the scalar secant iteration of
`scipy.optimize.newton` (not part of this repository snapshot), as invoked
by `supercon` with `disp=True`.  One call per remaining iteration; fuel `0`
corresponds to the `for` loop finishing all `maxiter` iterations without
convergence, which with `disp=True` raises `RuntimeError`. -/
noncomputable def secantLoop (f : ℝ → ℝ) :
    ℕ → ℝ → ℝ → ℝ → ℝ → ℝ → ℝ → Except NewtonErr ℝ
  | 0, _, _, _, _, _, _ => Except.error NewtonErr.maxIter
  | n + 1, p0, p1, q0, q1, tol, rtol =>
    if q1 = q0 then
      if p1 ≠ p0 then Except.error NewtonErr.tolReached
      else Except.ok ((p1 + p0) / 2)
    else
      let p := if |q1| > |q0| then (-q0 / q1 * p1 + p0) / (1 - q0 / q1)
               else (-q1 / q0 * p0 + p1) / (1 - q1 / q0)
      if |p - p1| ≤ tol + rtol * |p1| then Except.ok p
      else secantLoop f n p1 p q1 (f p) tol rtol

/-- Modelled from the spec: `scipy.optimize.newton(func, x0, fprime=None,
x1=x1, tol=tol, rtol=rtol, maxiter=maxiter, disp=True)`; the convergence
test is `np.isclose(p, p1, rtol, atol=tol)`, i.e.
`|p - p1| <= tol + rtol * |p1|`. -/
noncomputable def scipyNewtonSecant (f : ℝ → ℝ) (x0 x1 tol rtol : ℝ) (maxiter : ℕ) :
    Except NewtonErr ℝ :=
  if x1 = x0 then Except.error NewtonErr.badSeed
  else
    let q0 := f x0
    let q1 := f x1
    if |q1| < |q0| then secantLoop f maxiter x1 x0 q1 q0 tol rtol
    else secantLoop f maxiter x0 x1 q0 q1 tol rtol

/-- Exhausted fuel (the `for` loop ran `maxiter` iterations without
converging) is an error, never a value. -/
lemma secantLoop_zero (f : ℝ → ℝ) (p0 p1 q0 q1 tol rtol : ℝ) :
    secantLoop f 0 p0 p1 q0 q1 tol rtol = Except.error NewtonErr.maxIter := rfl

/-- One unfolding of the secant iteration. -/
lemma secantLoop_succ (f : ℝ → ℝ) (n : ℕ) (p0 p1 q0 q1 tol rtol : ℝ) :
    secantLoop f (n + 1) p0 p1 q0 q1 tol rtol =
      if q1 = q0 then
        if p1 ≠ p0 then Except.error NewtonErr.tolReached
        else Except.ok ((p1 + p0) / 2)
      else
        let p := if |q1| > |q0| then (-q0 / q1 * p1 + p0) / (1 - q0 / q1)
                 else (-q1 / q0 * p0 + p1) / (1 - q1 / q0)
        if |p - p1| ≤ tol + rtol * |p1| then Except.ok p
        else secantLoop f n p1 p q1 (f p) tol rtol := rfl

/-! ## The conductor evaluation routine `supercon`

`SuperconductingTFCoil.supercon` (superconducting_tf_coil.py, lines
854-1452; the output-printing block under `if output:` is omitted, as are
the two `logger.warning` calls, which write to the log only).

The nine material correlations live in the external `superconductors`
module, which is not part of this repository snapshot; they are therefore
kept abstract as a record of functions `SCLib`.  The module-level variables
read by `supercon` are gathered in `Globals`. -/

/-- The external `superconductors` correlation library, abstract.  Each
field has the arity of the corresponding Python function; functions
returning several values return tuples.  `current_density_margin` receives
the candidate temperature first, then the `args` tuple
`(isumat, jsc, bmax, strain, bc20m, tc0m[, c0])` — the optional trailing
`c0` (passed only for `isumat=3`) is an `Option`. -/
structure SCLib where
  itersc : ℝ → ℝ → ℝ → ℝ → ℝ → ℝ × ℝ × ℝ
  bi2212 : ℝ → ℝ → ℝ → ℝ → ℝ × ℝ
  jcrit_nbti : ℝ → ℝ → ℝ → ℝ → ℝ → ℝ × ℝ
  western_superconducting_nb3sn : ℝ → ℝ → ℝ → ℝ → ℝ → ℝ × ℝ × ℝ
  gl_nbti : ℝ → ℝ → ℝ → ℝ → ℝ → ℝ × ℝ × ℝ
  gl_rebco : ℝ → ℝ → ℝ → ℝ → ℝ → ℝ × ℝ × ℝ
  hijc_rebco : ℝ → ℝ → ℝ → ℝ → ℝ → ℝ → ℝ → ℝ × ℝ × ℝ
  current_density_margin : ℝ → ℤ → ℝ → ℝ → ℝ → ℝ → ℝ → Option ℝ → ℝ

/-- Module-level variables read by `supercon`
(`tfcoil_variables` / `rebco_variables`). -/
structure Globals where
  dia_tf_turn_coolant_channel : ℝ
  i_str_wp : ℤ
  str_tf_con_res : ℝ
  str_wp : ℝ
  b_crit_upper_nbti : ℝ
  t_crit_nbti : ℝ
  tape_width : ℝ
  rebco_thickness : ℝ
  tape_thickness : ℝ
  bmaxtfrp : ℝ

/-- Errors raised inside `supercon`: `ProcessValueError` (material id 6 or
an unknown id), a propagated scipy `RuntimeError`/`ValueError` from the
root-find, or the propagated `IndexError` from `protect`. -/
inductive PErr where
  | processValue
  | newton (e : NewtonErr)
  | indexError
deriving DecidableEq

/-- Lines 942-949: total helium fraction, before the 0.99 cap. -/
noncomputable def superconFhetot (glb : Globals) (fhe acs : ℝ) : ℝ :=
  fhe + (Real.pi / 4) * glb.dia_tf_turn_coolant_channel *
    glb.dia_tf_turn_coolant_channel / acs

/-- Lines 951-958: conductor fraction `fcond = 1 - fhetot`, with `fhetot`
capped at 0.99 first. -/
noncomputable def superconFcond (glb : Globals) (fhe acs : ℝ) : ℝ :=
  1 - (if superconFhetot glb fhe acs > 0.99 then 0.99 else superconFhetot glb fhe acs)

/-- Lines 960-963: the strain used by the correlations. -/
noncomputable def superconStrain (glb : Globals) : ℝ :=
  if glb.i_str_wp = 0 then glb.str_tf_con_res else glb.str_wp

/-- `np.sign`. -/
noncomputable def npSign (x : ℝ) : ℝ := if 0 < x then 1 else if x < 0 then -1 else 0

/-- The strain-limit guard repeated in branches 1, 4, 5, 8, 9 of the
material dispatch: if `|strain| > lim`, report error 261 and replace the
strain by `sign(strain) * lim`. -/
noncomputable def clampedStrain (strain lim : ℝ) : ℝ × List ℕ :=
  if |strain| > lim then (npSign strain * lim, [261]) else (strain, [])

/-- The local variables of the `supercon` material-dispatch block
(lines 965-1137) that flow into the rest of the routine. -/
structure MatEval where
  j_crit_sc : ℝ
  j_crit_cable : ℝ
  icrit : ℝ
  j_crit_str_tf : ℝ
  strain_used : ℝ
  bc20m : Option ℝ
  tc0m : Option ℝ
  c0 : Option ℝ
  tmarg_bi2212 : Option ℝ

/-- The record shape shared by the non-Bi-2212 branches:
`j_crit_cable = j_crit_sc * (1 - fcu) * fcond` and `icrit = j_crit_cable * acs`. -/
def mkMatEval (j_crit_sc strain1 fcu fcond acs jstr : ℝ)
    (bc20m tc0m c0 : Option ℝ) : MatEval :=
  { j_crit_sc := j_crit_sc,
    j_crit_cable := j_crit_sc * (1 - fcu) * fcond,
    icrit := j_crit_sc * (1 - fcu) * fcond * acs,
    j_crit_str_tf := jstr,
    strain_used := strain1,
    bc20m := bc20m, tc0m := tc0m, c0 := c0, tmarg_bi2212 := none }

/-- The material-dispatch block of `supercon` (lines 965-1137), returning
the evaluated quantities together with the reported diagnostic codes.
Material id 6 (REBCO CroCo) and unknown ids raise `ProcessValueError`. -/
noncomputable def superconDispatch (lib : SCLib) (glb : Globals)
    (acs aturn bmax fhe fcu jwp : ℝ) (isumat : ℤ)
    (fhts thelium bcritsc tcritsc : ℝ) : Except PErr MatEval × List ℕ :=
  let fcond := superconFcond glb fhe acs
  let strain := superconStrain glb
  if isumat = 1 then
    let cs := clampedStrain strain 0.5e-2
    let j := (lib.itersc thelium bmax cs.1 32.97 16.06).1
    (Except.ok (mkMatEval j cs.1 fcu fcond acs (j * (1 - fcu))
      (some 32.97) (some 16.06) none), cs.2)
  else if isumat = 2 then
    let jstrand := jwp * aturn / (acs * fcond)
    let res := lib.bi2212 bmax jstrand thelium fhts
    let j_crit_sc := res.1 / (1 - fcu)
    let me : MatEval :=
      { j_crit_sc := j_crit_sc, j_crit_cable := res.1,
        icrit := res.1 * acs * fcond, j_crit_str_tf := j_crit_sc,
        strain_used := strain, bc20m := none, tc0m := none, c0 := none,
        tmarg_bi2212 := some res.2 }
    (Except.ok me, [])
  else if isumat = 3 then
    let j := (lib.jcrit_nbti thelium bmax 1e10 15 9.3).1
    (Except.ok (mkMatEval j strain fcu fcond acs (j * (1 - fcu))
      (some 15) (some 9.3) (some 1e10)), [])
  else if isumat = 4 then
    let cs := clampedStrain strain 0.5e-2
    let j := (lib.itersc thelium bmax cs.1 bcritsc tcritsc).1
    (Except.ok (mkMatEval j cs.1 fcu fcond acs (j * (1 - fcu))
      (some bcritsc) (some tcritsc) none), cs.2)
  else if isumat = 5 then
    let cs := clampedStrain strain 0.5e-2
    let j := (lib.western_superconducting_nb3sn thelium bmax cs.1 32.97 16.06).1
    (Except.ok (mkMatEval j cs.1 fcu fcond acs (j * (1 - fcu))
      (some 32.97) (some 16.06) none), cs.2)
  else if isumat = 6 then
    (Except.error PErr.processValue, [])
  else if isumat = 7 then
    let j := (lib.gl_nbti thelium bmax strain glb.b_crit_upper_nbti glb.t_crit_nbti).1
    (Except.ok (mkMatEval j strain fcu fcond acs (j * (1 - fcu))
      (some glb.b_crit_upper_nbti) (some glb.t_crit_nbti) none), [])
  else if isumat = 8 then
    let cs := clampedStrain strain 0.7e-2
    let j := (lib.gl_rebco thelium bmax cs.1 430 185).1
    (Except.ok (mkMatEval j cs.1 fcu fcond acs j
      (some 430) (some 185) none), cs.2)
  else if isumat = 9 then
    let cs := clampedStrain strain 0.7e-2
    let j := (lib.hijc_rebco thelium bmax 138 92 glb.tape_width
      glb.rebco_thickness glb.tape_thickness).1
    (Except.ok (mkMatEval j cs.1 fcu fcond acs (j * (1 - fcu))
      (some 138) (some 92) none), cs.2)
  else
    (Except.error PErr.processValue, [])

/-- The actual current density in the superconductor,
`jsc = iooic * j_crit_sc` with `iooic = iop / icrit` (lines 1143-1148). -/
noncomputable def superconJsc (iop : ℝ) (me : MatEval) : ℝ :=
  (iop / me.icrit) * me.j_crit_sc

/-- The function handed to the root-finder: `current_density_margin`
partially applied to the `args` tuple built at lines 1178-1181. -/
noncomputable def superconNewtonFn (lib : SCLib) (isumat : ℤ) (jsc bmax : ℝ)
    (me : MatEval) : ℝ → ℝ :=
  fun t => lib.current_density_margin t isumat jsc bmax me.strain_used
    (me.bc20m.getD 0) (me.tc0m.getD 0) me.c0

/-- The values `supercon` returns or writes back. -/
structure SCOut where
  j_tf_wp_critical : ℝ
  vd : ℝ
  tmarg : ℝ
  j_crit_str_tf : ℝ
  temp_margin_written : Option ℝ
  jwdgpro : ℝ

/-- `SuperconductingTFCoil.supercon`.  The first component is the returned
triple (as an `SCOut`, together with the written-back globals); the second
component is the list of diagnostic codes passed to
`error_handling.report_error`, in order. -/
noncomputable def supercon (lib : SCLib) (glb : Globals)
    (acs aturn bmax fhe fcu iop jwp : ℝ) (isumat : ℤ)
    (fhts tdmptf tfes thelium tmax bcritsc tcritsc : ℝ) :
    Except PErr SCOut × List ℕ :=
  let tdump := tdmptf
  let fcond := superconFcond glb fhe acs
  match superconDispatch lib glb acs aturn bmax fhe fcu jwp isumat fhts thelium
      bcritsc tcritsc with
  | (Except.error e, rep) => (Except.error e, rep)
  | (Except.ok me, rep) =>
    let j_tf_wp_critical := me.icrit / aturn
    let jsc := superconJsc iop me
    let rep := rep ++ (if isumat = 8 ∧ glb.bmaxtfrp ≥ 14 then [266] else [])
    if isumat = 1 ∨ isumat = 3 ∨ isumat = 4 ∨ isumat = 5 ∨ isumat = 7 ∨
        isumat = 8 ∨ isumat = 9 then
      match scipyNewtonSecant (superconNewtonFn lib isumat jsc bmax me)
          thelium (2 * thelium) 1e-6 1e-6 50 with
      | Except.error e => (Except.error (PErr.newton e), rep)
      | Except.ok t_zero_margin =>
        let tmarg := t_zero_margin - thelium
        match protect iop tfes acs aturn tdump fcond fcu thelium tmax with
        | none => (Except.error PErr.indexError, rep)
        | some pr =>
          let out : SCOut :=
            { j_tf_wp_critical := j_tf_wp_critical, vd := pr.2,
              tmarg := tmarg, j_crit_str_tf := me.j_crit_str_tf,
              temp_margin_written := some tmarg, jwdgpro := pr.1 }
          (Except.ok out, rep)
    else
      let tmarg := me.tmarg_bi2212.getD 0
      match protect iop tfes acs aturn tdump fcond fcu thelium tmax with
      | none => (Except.error PErr.indexError, rep)
      | some pr =>
        let out : SCOut :=
          { j_tf_wp_critical := j_tf_wp_critical, vd := pr.2,
            tmarg := tmarg, j_crit_str_tf := me.j_crit_str_tf,
            temp_margin_written := none, jwdgpro := pr.1 }
        (Except.ok out, rep)

/-- C10: the helium fraction is capped at 0.99 (lines 954-955), so the
conductor fraction `fcond = 1 - fhetot` that `supercon` uses in the
critical-current computation and passes to `protect` is at least 0.01 and
in particular strictly positive, for every input, including degenerate
cable-space geometries. -/
theorem supercon_fcond_lower_bound (glb : Globals) (fhe acs : ℝ) :
    0.01 ≤ superconFcond glb fhe acs ∧ 0 < superconFcond glb fhe acs := by
  have h : 0.01 ≤ superconFcond glb fhe acs := by
    unfold superconFcond
    split_ifs with hgt
    · norm_num
    · push_neg at hgt; linarith
  exact ⟨h, by linarith⟩

/-- A trivial instantiation of the external correlation library, used by
the concrete witnesses below. -/
noncomputable def libZero : SCLib :=
  { itersc := fun _ _ _ _ _ => (0, 0, 0),
    bi2212 := fun _ _ _ _ => (0, 0),
    jcrit_nbti := fun _ _ _ _ _ => (0, 0),
    western_superconducting_nb3sn := fun _ _ _ _ _ => (0, 0, 0),
    gl_nbti := fun _ _ _ _ _ => (0, 0, 0),
    gl_rebco := fun _ _ _ _ _ => (0, 0, 0),
    hijc_rebco := fun _ _ _ _ _ _ _ => (0, 0, 0),
    current_density_margin := fun _ _ _ _ _ _ _ _ => 0 }

/-- A concrete set of module-level variables, used by the witnesses. -/
noncomputable def glbZero : Globals :=
  { dia_tf_turn_coolant_channel := 0, i_str_wp := 0, str_tf_con_res := 0,
    str_wp := 0, b_crit_upper_nbti := 0, t_crit_nbti := 0, tape_width := 0,
    rebco_thickness := 0, tape_thickness := 0, bmaxtfrp := 0 }

/-- C7: `supercon` raises `ProcessValueError` (and produces no result) when
the material selector is 6 (REBCO CroCo, which has its own dedicated path)
and when the selector is not one of the nine known material ids. -/
theorem supercon_rejects_invalid_material (lib : SCLib) (glb : Globals)
    (acs aturn bmax fhe fcu iop jwp : ℝ) (isumat : ℤ)
    (fhts tdmptf tfes thelium tmax bcritsc tcritsc : ℝ)
    (h : isumat = 6 ∨ isumat ∉ ([1, 2, 3, 4, 5, 6, 7, 8, 9] : List ℤ)) :
    (supercon lib glb acs aturn bmax fhe fcu iop jwp isumat fhts tdmptf tfes
      thelium tmax bcritsc tcritsc).1 = Except.error PErr.processValue := by
  have hd : superconDispatch lib glb acs aturn bmax fhe fcu jwp isumat fhts
      thelium bcritsc tcritsc = (Except.error PErr.processValue, []) := by
    rcases h with h6 | hnot
    · subst h6
      norm_num [superconDispatch]
    · simp only [List.mem_cons, List.not_mem_nil, or_false] at hnot
      push_neg at hnot
      obtain ⟨h1, h2, h3, h4, h5, h6, h7, h8, h9⟩ := hnot
      simp only [superconDispatch, if_neg h1, if_neg h2, if_neg h3, if_neg h4,
        if_neg h5, if_neg h6, if_neg h7, if_neg h8, if_neg h9]
  simp only [supercon, hd]

/-- C7 witness: material id 6 is rejected at a concrete design point. -/
theorem supercon_rejects_invalid_material_witness :
    (supercon libZero glbZero 1 1 1 1 1 1 1 6 1 1 1 1 1 1 1).1 =
      Except.error PErr.processValue :=
  supercon_rejects_invalid_material libZero glbZero 1 1 1 1 1 1 1 6 1 1 1 1 1 1 1
    (Or.inl rfl)

/-- C8: for material id 2 (Bi-2212), `supercon` takes both the critical
cable current density and the temperature margin directly from the
`bi2212` correlation and never invokes the Newton root-find: the entire
result is independent of the `current_density_margin` function (so no root
solve contributes to it), the returned margin is the second component of
`bi2212(bmax, jstrand, thelium, fhts)`, and `tfcoil_variables.temp_margin`
is not written (it is only written inside the root-find branch). -/
theorem supercon_bi2212_bypasses_newton (lib : SCLib)
    (g : ℝ → ℤ → ℝ → ℝ → ℝ → ℝ → ℝ → Option ℝ → ℝ) (glb : Globals)
    (acs aturn bmax fhe fcu iop jwp : ℝ) (isumat : ℤ)
    (fhts tdmptf tfes thelium tmax bcritsc tcritsc : ℝ) (out : SCOut)
    (h2 : isumat = 2)
    (hout : (supercon lib glb acs aturn bmax fhe fcu iop jwp isumat fhts tdmptf
      tfes thelium tmax bcritsc tcritsc).1 = Except.ok out) :
    supercon { lib with current_density_margin := g } glb acs aturn bmax fhe fcu
        iop jwp isumat fhts tdmptf tfes thelium tmax bcritsc tcritsc =
      supercon lib glb acs aturn bmax fhe fcu iop jwp isumat fhts tdmptf tfes
        thelium tmax bcritsc tcritsc ∧
    out.tmarg = (lib.bi2212 bmax (jwp * aturn / (acs * superconFcond glb fhe acs))
      thelium fhts).2 ∧
    out.temp_margin_written = none := by
  subst h2
  refine ⟨rfl, ?_⟩
  simp only [supercon, superconDispatch] at hout
  norm_num at hout
  rcases hp : protect iop tfes acs aturn tdmptf (superconFcond glb fhe acs) fcu
      thelium tmax with _ | pr
  · rw [hp] at hout
    simp at hout
  · rw [hp] at hout
    simp only [Option.getD_some] at hout
    norm_num at hout
    rw [← hout]
    exact ⟨rfl, rfl⟩

/-- Evaluation of `protect` with conductor fraction 1 and copper fraction 0. -/
lemma protect_eval_3 : protect 1 1 1 1 1 1 0 4 104 = some (0, 2) := by
  have h6 : pyInt (1 + (104 - 4) / 20) = 6 := by
    unfold pyInt
    rw [if_pos (by norm_num : (0:ℝ) ≤ 1 + (104 - 4) / 20)]
    norm_num
  simp only [protect, h6]
  norm_num [(show pyGet p1 5 = some 2.95 from rfl), (show pyGet p1 6 = some 3.1 from rfl),
    (show pyGet p2 5 = some 3.7 from rfl), (show pyGet p2 6 = some 4.6 from rfl),
    (show pyGet p3 5 = some 3.7 from rfl), (show pyGet p3 6 = some 4.6 from rfl)]

/-- The conductor fraction at the witnesses' design point is 1. -/
lemma fcond_glbZero : superconFcond glbZero 0 1 = 1 := by
  norm_num [superconFcond, superconFhetot, glbZero]

/-- Correlation library whose `bi2212` returns a cable critical current
density of 1 and a temperature margin of 7. -/
noncomputable def libB : SCLib := { libZero with bi2212 := fun _ _ _ _ => (1, 7) }

/-- The concrete output of `supercon` at the Bi-2212 witness point. -/
noncomputable def outB : SCOut :=
  { j_tf_wp_critical := 1, vd := 2, tmarg := 7, j_crit_str_tf := 1,
    temp_margin_written := none, jwdgpro := 0 }

/-- Concrete run of `supercon` on material 2. -/
lemma supercon_eval_bi2212 :
    (supercon libB glbZero 1 1 5 0 0 1 1 2 1 1 1 4 104 0 0).1 = Except.ok outB := by
  simp only [supercon, superconDispatch, libB, libZero]
  norm_num [protect_eval_3, outB, fcond_glbZero]

/-- A trivial margin function used to perturb the library in the witness. -/
noncomputable def cdmZero : ℝ → ℤ → ℝ → ℝ → ℝ → ℝ → ℝ → Option ℝ → ℝ :=
  fun _ _ _ _ _ _ _ _ => 0

/-- C8 witness: the Bi-2212 special case at a concrete design point. -/
theorem supercon_bi2212_bypasses_newton_witness :
    supercon { libB with current_density_margin := cdmZero } glbZero 1 1 5 0 0 1 1
        2 1 1 1 4 104 0 0 =
      supercon libB glbZero 1 1 5 0 0 1 1 2 1 1 1 4 104 0 0 ∧
    outB.tmarg = (libB.bi2212 5 (1 * 1 / (1 * superconFcond glbZero 0 1)) 4 1).2 ∧
    outB.temp_margin_written = none :=
  supercon_bi2212_bypasses_newton libB cdmZero glbZero 1 1 5 0 0 1 1 2 1 1 1 4 104
    0 0 outB rfl supercon_eval_bi2212

/-- C4: for the materials that use the root-find, non-convergence of the
secant iteration within the 50 allotted iterations is an error (`disp=True`
makes scipy raise `RuntimeError` when the loop fuel runs out instead of
returning the last iterate) and that error propagates out of `supercon`
uncaught, so the caller sees a hard failure rather than a silently accepted
iterate. -/
theorem supercon_newton_nonconvergence_is_error (lib : SCLib) (glb : Globals)
    (acs aturn bmax fhe fcu iop jwp : ℝ) (isumat : ℤ)
    (fhts tdmptf tfes thelium tmax bcritsc tcritsc : ℝ)
    (me : MatEval) (rep : List ℕ) (e : NewtonErr)
    (f : ℝ → ℝ) (p0 p1 q0 q1 tol rtol : ℝ)
    (hmat : isumat = 1 ∨ isumat = 3 ∨ isumat = 4 ∨ isumat = 5 ∨ isumat = 7 ∨
      isumat = 8 ∨ isumat = 9)
    (hd : superconDispatch lib glb acs aturn bmax fhe fcu jwp isumat fhts thelium
      bcritsc tcritsc = (Except.ok me, rep))
    (hn : scipyNewtonSecant (superconNewtonFn lib isumat (superconJsc iop me) bmax me)
      thelium (2 * thelium) 1e-6 1e-6 50 = Except.error e) :
    (supercon lib glb acs aturn bmax fhe fcu iop jwp isumat fhts tdmptf tfes
      thelium tmax bcritsc tcritsc).1 = Except.error (PErr.newton e) ∧
    secantLoop f 0 p0 p1 q0 q1 tol rtol = Except.error NewtonErr.maxIter := by
  refine ⟨?_, rfl⟩
  simp only [supercon, hd]
  rw [if_pos hmat, hn]

/-- Correlation library whose margin function is the constant 1: the secant
iteration immediately sees `q1 == q0` at distinct points and raises. -/
noncomputable def libC4 : SCLib :=
  { libZero with current_density_margin := fun _ _ _ _ _ _ _ _ => 1 }

/-- The dispatch result at the witness design point (material 1, zero
strain, zero correlation). -/
noncomputable def meC4 : MatEval :=
  { j_crit_sc := 0, j_crit_cable := 0, icrit := 0, j_crit_str_tf := 0,
    strain_used := 0, bc20m := some 32.97, tc0m := some 16.06, c0 := none,
    tmarg_bi2212 := none }

/-- Dispatch evaluation at the witness design point for material 1. -/
lemma dispatch_eval_C4 :
    superconDispatch libC4 glbZero 1 1 5 0 0 1 1 1 4 0 0 =
      (Except.ok meC4, []) := by
  simp only [superconDispatch, libC4, libZero]
  norm_num [clampedStrain, superconStrain, glbZero, mkMatEval, meC4, fcond_glbZero]

/-- The newton call at the C4 witness design point raises. -/
lemma newton_eval_C4 :
    scipyNewtonSecant (superconNewtonFn libC4 1 (superconJsc 1 meC4) 5 meC4)
      4 (2 * 4) 1e-6 1e-6 50 = Except.error NewtonErr.tolReached := by
  have hf : superconNewtonFn libC4 1 (superconJsc 1 meC4) 5 meC4 =
      fun _ => (1 : ℝ) := by
    funext t
    simp [superconNewtonFn, libC4, libZero]
  rw [hf, scipyNewtonSecant, if_neg (by norm_num : ¬ (2 * 4 : ℝ) = 4)]
  simp only []
  rw [if_neg (by norm_num : ¬ |(1:ℝ)| < |(1:ℝ)|)]
  rw [show (50:ℕ) = 49 + 1 from rfl, secantLoop_succ]
  rw [if_pos rfl, if_pos (by norm_num : (2 * 4 : ℝ) ≠ 4)]

/-- C4 witness: at a concrete design point with a constant margin function
the root-find raises and `supercon` fails hard. -/
theorem supercon_newton_nonconvergence_is_error_witness :
    (supercon libC4 glbZero 1 1 5 0 0 1 1 1 1 1 1 4 104 0 0).1 =
      Except.error (PErr.newton NewtonErr.tolReached) ∧
    secantLoop (fun t => t) 0 0 0 0 0 0 0 = Except.error NewtonErr.maxIter :=
  supercon_newton_nonconvergence_is_error libC4 glbZero 1 1 5 0 0 1 1 1 1 1 1 4
    104 0 0 meC4 [] NewtonErr.tolReached (fun t => t) 0 0 0 0 0 0
    (Or.inl rfl) dispatch_eval_C4 newton_eval_C4

/-- C9: the temperature-margin root-find of `supercon` is the scalar
secant iteration (scipy's `newton` with `fprime=None`) on the
`current_density_margin` zero-margin function built from `jsc`, the peak
field, the (possibly clamped) strain and the material constants, seeded at
`thelium` with the second trial point `2 * thelium`, with absolute
tolerance `1e-6`, relative tolerance `1e-6` and at most 50 iterations;
whenever `supercon` returns, its margin is exactly the found root minus
`thelium`, and that margin is what is written to
`tfcoil_variables.temp_margin`. -/
theorem supercon_newton_parameters (lib : SCLib) (glb : Globals)
    (acs aturn bmax fhe fcu iop jwp : ℝ) (isumat : ℤ)
    (fhts tdmptf tfes thelium tmax bcritsc tcritsc : ℝ)
    (me : MatEval) (rep : List ℕ) (t : ℝ) (out : SCOut)
    (hmat : isumat = 1 ∨ isumat = 3 ∨ isumat = 4 ∨ isumat = 5 ∨ isumat = 7 ∨
      isumat = 8 ∨ isumat = 9)
    (hd : superconDispatch lib glb acs aturn bmax fhe fcu jwp isumat fhts thelium
      bcritsc tcritsc = (Except.ok me, rep))
    (hn : scipyNewtonSecant (superconNewtonFn lib isumat (superconJsc iop me) bmax me)
      thelium (2 * thelium) 1e-6 1e-6 50 = Except.ok t)
    (hout : (supercon lib glb acs aturn bmax fhe fcu iop jwp isumat fhts tdmptf
      tfes thelium tmax bcritsc tcritsc).1 = Except.ok out) :
    out.tmarg = t - thelium ∧ out.temp_margin_written = some (t - thelium) := by
  simp only [supercon, hd] at hout
  rw [if_pos hmat, hn] at hout
  rcases hp : protect iop tfes acs aturn tdmptf (superconFcond glb fhe acs) fcu
      thelium tmax with _ | pr
  · rw [hp] at hout
    simp at hout
  · rw [hp] at hout
    simp only [Except.ok.injEq] at hout
    rw [← hout]
    exact ⟨rfl, rfl⟩

/-- Correlation library whose margin function is `t - 4`, with root at the
helium temperature 4 K. -/
noncomputable def libC9 : SCLib :=
  { libZero with current_density_margin := fun t _ _ _ _ _ _ _ => t - 4 }

/-- Dispatch evaluation at the C9 witness design point (material 1). -/
lemma dispatch_eval_C9 :
    superconDispatch libC9 glbZero 1 1 5 0 0 1 1 1 4 0 0 =
      (Except.ok meC4, []) := by
  simp only [superconDispatch, libC9, libZero]
  norm_num [clampedStrain, superconStrain, glbZero, mkMatEval, meC4, fcond_glbZero]

/-- The secant run at the C9 witness design point converges to the root 4
in two iterations. -/
lemma newton_eval_C9 :
    scipyNewtonSecant (superconNewtonFn libC9 1 (superconJsc 1 meC4) 5 meC4)
      4 (2 * 4) 1e-6 1e-6 50 = Except.ok 4 := by
  have hf : superconNewtonFn libC9 1 (superconJsc 1 meC4) 5 meC4 =
      fun t => t - (4 : ℝ) := by
    funext t
    simp [superconNewtonFn, libC9, libZero]
  rw [hf, scipyNewtonSecant, if_neg (by norm_num : ¬ (2 * 4 : ℝ) = 4)]
  norm_num
  rw [show (50:ℕ) = 49 + 1 from rfl, secantLoop_succ]
  norm_num
  rw [show (49:ℕ) = 48 + 1 from rfl, secantLoop_succ]
  norm_num

/-- Concrete output of `supercon` at the C9 witness design point. -/
noncomputable def outC9 : SCOut :=
  { j_tf_wp_critical := 0, vd := 2, tmarg := 0, j_crit_str_tf := 0,
    temp_margin_written := some 0, jwdgpro := 0 }

/-- Full run of `supercon` at the C9 witness design point. -/
lemma supercon_eval_C9 :
    (supercon libC9 glbZero 1 1 5 0 0 1 1 1 1 1 1 4 104 0 0).1 =
      Except.ok outC9 := by
  simp only [supercon, dispatch_eval_C9]
  rw [if_pos (Or.inl trivial), newton_eval_C9]
  have hp : protect 1 1 1 1 1 (superconFcond glbZero 0 1) 0 4 104 = some (0, 2) := by
    rw [fcond_glbZero]; exact protect_eval_3
  rw [hp]
  norm_num [outC9, meC4]

/-- C9 witness: material 1 with margin function `t - 4`; the root is 4 and
the returned margin is `4 - 4 = 0`. -/
theorem supercon_newton_parameters_witness :
    outC9.tmarg = 4 - 4 ∧ outC9.temp_margin_written = some (4 - 4) :=
  supercon_newton_parameters libC9 glbZero 1 1 5 0 0 1 1 1 1 1 1 4 104 0 0
    meC4 [] 4 outC9 (Or.inl rfl) dispatch_eval_C9 newton_eval_C9 supercon_eval_C9

/-! ## Strain clamping (C3) -/

/-- Overwrite the strain that `supercon` reads: whichever of the two
module-level strain fields is selected by `i_str_wp`. -/
noncomputable def setStrain (glb : Globals) (s : ℝ) : Globals :=
  if glb.i_str_wp = 0 then { glb with str_tf_con_res := s }
  else { glb with str_wp := s }

lemma superconStrain_setStrain (glb : Globals) (s : ℝ) :
    superconStrain (setStrain glb s) = s := by
  by_cases h : glb.i_str_wp = 0 <;> simp [superconStrain, setStrain, h]

lemma setStrain_dia (glb : Globals) (s : ℝ) :
    (setStrain glb s).dia_tf_turn_coolant_channel =
      glb.dia_tf_turn_coolant_channel := by
  unfold setStrain; split_ifs <;> rfl

lemma setStrain_bmaxtfrp (glb : Globals) (s : ℝ) :
    (setStrain glb s).bmaxtfrp = glb.bmaxtfrp := by
  unfold setStrain; split_ifs <;> rfl

lemma setStrain_tape_width (glb : Globals) (s : ℝ) :
    (setStrain glb s).tape_width = glb.tape_width := by
  unfold setStrain; split_ifs <;> rfl

lemma setStrain_rebco_thickness (glb : Globals) (s : ℝ) :
    (setStrain glb s).rebco_thickness = glb.rebco_thickness := by
  unfold setStrain; split_ifs <;> rfl

lemma setStrain_tape_thickness (glb : Globals) (s : ℝ) :
    (setStrain glb s).tape_thickness = glb.tape_thickness := by
  unfold setStrain; split_ifs <;> rfl

lemma superconFcond_setStrain (glb : Globals) (s fhe acs : ℝ) :
    superconFcond (setStrain glb s) fhe acs = superconFcond glb fhe acs := by
  unfold superconFcond superconFhetot
  rw [setStrain_dia]

lemma abs_npSign_mul (s l : ℝ) (hs : s ≠ 0) (hl : 0 ≤ l) :
    |npSign s * l| = l := by
  unfold npSign
  rcases lt_trichotomy s 0 with h | h | h
  · rw [if_neg (by linarith), if_pos h]
    simp [abs_of_nonneg hl]
  · exact absurd h hs
  · rw [if_pos h]
    simp [abs_of_nonneg hl]

/-- Two `supercon` runs whose material dispatch produces the same values
(but possibly different diagnostic codes) agree on the returned result, and
their diagnostic lists share the same tail. -/
lemma supercon_reports_congr (lib : SCLib) (glb glb' : Globals)
    (acs aturn bmax fhe fcu iop jwp : ℝ) (isumat : ℤ)
    (fhts tdmptf tfes thelium tmax bcritsc tcritsc : ℝ)
    (me : MatEval) (r1 r2 : List ℕ)
    (hd : superconDispatch lib glb acs aturn bmax fhe fcu jwp isumat fhts thelium
      bcritsc tcritsc = (Except.ok me, r1))
    (hd' : superconDispatch lib glb' acs aturn bmax fhe fcu jwp isumat fhts thelium
      bcritsc tcritsc = (Except.ok me, r2))
    (hfc : superconFcond glb' fhe acs = superconFcond glb fhe acs)
    (hbm : glb'.bmaxtfrp = glb.bmaxtfrp) :
    (supercon lib glb acs aturn bmax fhe fcu iop jwp isumat fhts tdmptf tfes
      thelium tmax bcritsc tcritsc).1 =
      (supercon lib glb' acs aturn bmax fhe fcu iop jwp isumat fhts tdmptf tfes
        thelium tmax bcritsc tcritsc).1 ∧
    ∃ c, (supercon lib glb acs aturn bmax fhe fcu iop jwp isumat fhts tdmptf tfes
        thelium tmax bcritsc tcritsc).2 = r1 ++ c ∧
      (supercon lib glb' acs aturn bmax fhe fcu iop jwp isumat fhts tdmptf tfes
        thelium tmax bcritsc tcritsc).2 = r2 ++ c := by
  simp only [supercon, hd, hd', hfc, hbm]
  split_ifs <;>
    rcases hN : scipyNewtonSecant (superconNewtonFn lib isumat (superconJsc iop me)
      bmax me) thelium (2 * thelium) 1e-6 1e-6 50 with e | t <;>
    rcases hp : protect iop tfes acs aturn tdmptf (superconFcond glb fhe acs) fcu
      thelium tmax with _ | pr <;>
    exact ⟨rfl, _, rfl, rfl⟩

/-- Dispatch characterization for material 1 (ITER Nb3Sn, standard). -/
lemma superconDispatch_1 (lib : SCLib) (glb : Globals)
    (acs aturn bmax fhe fcu jwp fhts thelium bcritsc tcritsc : ℝ) :
    superconDispatch lib glb acs aturn bmax fhe fcu jwp 1 fhts thelium bcritsc
        tcritsc =
      (Except.ok (mkMatEval
        ((lib.itersc thelium bmax (clampedStrain (superconStrain glb) 0.5e-2).1
          32.97 16.06).1)
        ((clampedStrain (superconStrain glb) 0.5e-2).1) fcu
        (superconFcond glb fhe acs) acs
        ((lib.itersc thelium bmax (clampedStrain (superconStrain glb) 0.5e-2).1
          32.97 16.06).1 * (1 - fcu))
        (some 32.97) (some 16.06) none),
       (clampedStrain (superconStrain glb) 0.5e-2).2) := by
  norm_num [superconDispatch]

/-- Dispatch characterization for material 4 (ITER Nb3Sn, user constants). -/
lemma superconDispatch_4 (lib : SCLib) (glb : Globals)
    (acs aturn bmax fhe fcu jwp fhts thelium bcritsc tcritsc : ℝ) :
    superconDispatch lib glb acs aturn bmax fhe fcu jwp 4 fhts thelium bcritsc
        tcritsc =
      (Except.ok (mkMatEval
        ((lib.itersc thelium bmax (clampedStrain (superconStrain glb) 0.5e-2).1
          bcritsc tcritsc).1)
        ((clampedStrain (superconStrain glb) 0.5e-2).1) fcu
        (superconFcond glb fhe acs) acs
        ((lib.itersc thelium bmax (clampedStrain (superconStrain glb) 0.5e-2).1
          bcritsc tcritsc).1 * (1 - fcu))
        (some bcritsc) (some tcritsc) none),
       (clampedStrain (superconStrain glb) 0.5e-2).2) := by
  norm_num [superconDispatch]

/-- Dispatch characterization for material 5 (WST Nb3Sn). -/
lemma superconDispatch_5 (lib : SCLib) (glb : Globals)
    (acs aturn bmax fhe fcu jwp fhts thelium bcritsc tcritsc : ℝ) :
    superconDispatch lib glb acs aturn bmax fhe fcu jwp 5 fhts thelium bcritsc
        tcritsc =
      (Except.ok (mkMatEval
        ((lib.western_superconducting_nb3sn thelium bmax
          (clampedStrain (superconStrain glb) 0.5e-2).1 32.97 16.06).1)
        ((clampedStrain (superconStrain glb) 0.5e-2).1) fcu
        (superconFcond glb fhe acs) acs
        ((lib.western_superconducting_nb3sn thelium bmax
          (clampedStrain (superconStrain glb) 0.5e-2).1 32.97 16.06).1 * (1 - fcu))
        (some 32.97) (some 16.06) none),
       (clampedStrain (superconStrain glb) 0.5e-2).2) := by
  norm_num [superconDispatch]

/-- Dispatch characterization for material 8 (Durham GL REBCO). -/
lemma superconDispatch_8 (lib : SCLib) (glb : Globals)
    (acs aturn bmax fhe fcu jwp fhts thelium bcritsc tcritsc : ℝ) :
    superconDispatch lib glb acs aturn bmax fhe fcu jwp 8 fhts thelium bcritsc
        tcritsc =
      (Except.ok (mkMatEval
        ((lib.gl_rebco thelium bmax (clampedStrain (superconStrain glb) 0.7e-2).1
          430 185).1)
        ((clampedStrain (superconStrain glb) 0.7e-2).1) fcu
        (superconFcond glb fhe acs) acs
        ((lib.gl_rebco thelium bmax (clampedStrain (superconStrain glb) 0.7e-2).1
          430 185).1)
        (some 430) (some 185) none),
       (clampedStrain (superconStrain glb) 0.7e-2).2) := by
  norm_num [superconDispatch]

/-- Dispatch characterization for material 9 (Hazelton-Zhai REBCO). -/
lemma superconDispatch_9 (lib : SCLib) (glb : Globals)
    (acs aturn bmax fhe fcu jwp fhts thelium bcritsc tcritsc : ℝ) :
    superconDispatch lib glb acs aturn bmax fhe fcu jwp 9 fhts thelium bcritsc
        tcritsc =
      (Except.ok (mkMatEval
        ((lib.hijc_rebco thelium bmax 138 92 glb.tape_width glb.rebco_thickness
          glb.tape_thickness).1)
        ((clampedStrain (superconStrain glb) 0.7e-2).1) fcu
        (superconFcond glb fhe acs) acs
        ((lib.hijc_rebco thelium bmax 138 92 glb.tape_width glb.rebco_thickness
          glb.tape_thickness).1 * (1 - fcu))
        (some 138) (some 92) none),
       (clampedStrain (superconStrain glb) 0.7e-2).2) := by
  norm_num [superconDispatch]

/-- C3 (amended): the strain clamp applies to the materials 1, 4, 5
(ITER/WST Nb3Sn, limit 0.5e-2) and 8, 9 (REBCO, limit 0.7e-2): there, a
strain whose magnitude exceeds the limit is reported through diagnostic
code 261, replaced by `sign(strain) * limit` before the correlation is
evaluated, and the run continues, returning exactly the result of the run
with strain `sign(strain) * limit`.  (Materials 2 and 3 ignore strain, and
material 7 — Durham Ginzburg-Landau Nb-Ti, a metallic low-temperature
variant — applies no clamp at all, which is the counterexample to the
original claim.) -/
theorem supercon_strain_clamp (lib : SCLib) (glb : Globals)
    (acs aturn bmax fhe fcu iop jwp : ℝ) (isumat : ℤ)
    (fhts tdmptf tfes thelium tmax bcritsc tcritsc lim : ℝ)
    (hmat : (isumat ∈ ([1, 4, 5] : List ℤ) ∧ lim = 0.5e-2) ∨
            (isumat ∈ ([8, 9] : List ℤ) ∧ lim = 0.7e-2))
    (hs : |superconStrain glb| > lim) :
    (supercon lib glb acs aturn bmax fhe fcu iop jwp isumat fhts tdmptf tfes
      thelium tmax bcritsc tcritsc).1 =
      (supercon lib (setStrain glb (npSign (superconStrain glb) * lim)) acs aturn
        bmax fhe fcu iop jwp isumat fhts tdmptf tfes thelium tmax bcritsc
        tcritsc).1 ∧
    (supercon lib glb acs aturn bmax fhe fcu iop jwp isumat fhts tdmptf tfes
      thelium tmax bcritsc tcritsc).2 =
      261 :: (supercon lib (setStrain glb (npSign (superconStrain glb) * lim)) acs
        aturn bmax fhe fcu iop jwp isumat fhts tdmptf tfes thelium tmax bcritsc
        tcritsc).2 := by
  have hlim : (0:ℝ) ≤ lim := by
    rcases hmat with ⟨_, h⟩ | ⟨_, h⟩ <;> rw [h] <;> norm_num
  have hs0 : superconStrain glb ≠ 0 := by
    intro h0
    rw [h0, abs_zero] at hs
    linarith
  have habs : |npSign (superconStrain glb) * lim| = lim :=
    abs_npSign_mul _ _ hs0 hlim
  have hcs1 : clampedStrain (superconStrain glb) lim =
      (npSign (superconStrain glb) * lim, [261]) := by
    unfold clampedStrain
    rw [if_pos hs]
  have hcs2 : clampedStrain (npSign (superconStrain glb) * lim) lim =
      (npSign (superconStrain glb) * lim, []) := by
    unfold clampedStrain
    rw [if_neg (by rw [habs]; exact lt_irrefl lim)]
  have key : ∃ m,
      superconDispatch lib glb acs aturn bmax fhe fcu jwp isumat fhts thelium
        bcritsc tcritsc = (Except.ok m, [261]) ∧
      superconDispatch lib (setStrain glb (npSign (superconStrain glb) * lim)) acs
        aturn bmax fhe fcu jwp isumat fhts thelium bcritsc tcritsc =
        (Except.ok m, []) := by
    rcases hmat with ⟨hm, hl⟩ | ⟨hm, hl⟩ <;> subst hl <;>
      simp only [List.mem_cons, List.not_mem_nil, or_false] at hm
    · rcases hm with h | h | h <;> subst h
      · refine ⟨mkMatEval
          ((lib.itersc thelium bmax (npSign (superconStrain glb) * 0.5e-2)
            32.97 16.06).1)
          (npSign (superconStrain glb) * 0.5e-2) fcu (superconFcond glb fhe acs) acs
          ((lib.itersc thelium bmax (npSign (superconStrain glb) * 0.5e-2)
            32.97 16.06).1 * (1 - fcu))
          (some 32.97) (some 16.06) none, ?_, ?_⟩
        · rw [superconDispatch_1, hcs1]
        · rw [superconDispatch_1, superconStrain_setStrain, superconFcond_setStrain,
            hcs2]
      · refine ⟨mkMatEval
          ((lib.itersc thelium bmax (npSign (superconStrain glb) * 0.5e-2)
            bcritsc tcritsc).1)
          (npSign (superconStrain glb) * 0.5e-2) fcu (superconFcond glb fhe acs) acs
          ((lib.itersc thelium bmax (npSign (superconStrain glb) * 0.5e-2)
            bcritsc tcritsc).1 * (1 - fcu))
          (some bcritsc) (some tcritsc) none, ?_, ?_⟩
        · rw [superconDispatch_4, hcs1]
        · rw [superconDispatch_4, superconStrain_setStrain, superconFcond_setStrain,
            hcs2]
      · refine ⟨mkMatEval
          ((lib.western_superconducting_nb3sn thelium bmax
            (npSign (superconStrain glb) * 0.5e-2) 32.97 16.06).1)
          (npSign (superconStrain glb) * 0.5e-2) fcu (superconFcond glb fhe acs) acs
          ((lib.western_superconducting_nb3sn thelium bmax
            (npSign (superconStrain glb) * 0.5e-2) 32.97 16.06).1 * (1 - fcu))
          (some 32.97) (some 16.06) none, ?_, ?_⟩
        · rw [superconDispatch_5, hcs1]
        · rw [superconDispatch_5, superconStrain_setStrain, superconFcond_setStrain,
            hcs2]
    · rcases hm with h | h <;> subst h
      · refine ⟨mkMatEval
          ((lib.gl_rebco thelium bmax (npSign (superconStrain glb) * 0.7e-2)
            430 185).1)
          (npSign (superconStrain glb) * 0.7e-2) fcu (superconFcond glb fhe acs) acs
          ((lib.gl_rebco thelium bmax (npSign (superconStrain glb) * 0.7e-2)
            430 185).1)
          (some 430) (some 185) none, ?_, ?_⟩
        · rw [superconDispatch_8, hcs1]
        · rw [superconDispatch_8, superconStrain_setStrain, superconFcond_setStrain,
            hcs2]
      · refine ⟨mkMatEval
          ((lib.hijc_rebco thelium bmax 138 92 glb.tape_width glb.rebco_thickness
            glb.tape_thickness).1)
          (npSign (superconStrain glb) * 0.7e-2) fcu (superconFcond glb fhe acs) acs
          ((lib.hijc_rebco thelium bmax 138 92 glb.tape_width glb.rebco_thickness
            glb.tape_thickness).1 * (1 - fcu))
          (some 138) (some 92) none, ?_, ?_⟩
        · rw [superconDispatch_9, hcs1]
        · rw [superconDispatch_9, superconStrain_setStrain, superconFcond_setStrain,
            setStrain_tape_width, setStrain_rebco_thickness, setStrain_tape_thickness,
            hcs2]
  obtain ⟨m, hd, hd'⟩ := key
  obtain ⟨h1, c, hc1, hc2⟩ := supercon_reports_congr lib glb
    (setStrain glb (npSign (superconStrain glb) * lim)) acs aturn bmax fhe fcu iop
    jwp isumat fhts tdmptf tfes thelium tmax bcritsc tcritsc m [261] [] hd hd'
    (superconFcond_setStrain glb _ fhe acs) (setStrain_bmaxtfrp glb _)
  refine ⟨h1, ?_⟩
  rw [hc1, hc2]
  simp

/-- Module-level variables with an out-of-limit resistive strain 0.8e-2. -/
noncomputable def glbW : Globals := { glbZero with str_tf_con_res := 0.008 }

/-- C3 witness: material 1 at strain 0.8 percent (limit 0.5 percent). -/
theorem supercon_strain_clamp_witness :
    (supercon libZero glbW 1 1 5 0 0 1 1 1 1 1 1 4 104 0 0).1 =
      (supercon libZero (setStrain glbW (npSign (superconStrain glbW) * 0.5e-2))
        1 1 5 0 0 1 1 1 1 1 1 4 104 0 0).1 ∧
    (supercon libZero glbW 1 1 5 0 0 1 1 1 1 1 1 4 104 0 0).2 =
      261 :: (supercon libZero (setStrain glbW (npSign (superconStrain glbW) * 0.5e-2))
        1 1 5 0 0 1 1 1 1 1 1 4 104 0 0).2 :=
  supercon_strain_clamp libZero glbW 1 1 5 0 0 1 1 1 1 1 1 4 104 0 0 0.5e-2
    (Or.inl ⟨by simp, rfl⟩)
    (by
      have h : superconStrain glbW = 0.008 := by
        norm_num [superconStrain, glbW, glbZero]
      rw [h, abs_of_pos (by norm_num : (0:ℝ) < 0.008)]
      norm_num)

/-- Correlation library whose `gl_nbti` returns the strain it was handed
(making the strain observable in the result) and whose margin function is
`t - 4`. -/
noncomputable def libC3 : SCLib :=
  { libZero with
    gl_nbti := fun _ _ strain _ _ => (strain, 0, 0),
    current_density_margin := fun t _ _ _ _ _ _ _ => t - 4 }

/-- Module-level variables with resistive strain `s`. -/
noncomputable def glbC3 (s : ℝ) : Globals := { glbZero with str_tf_con_res := s }

/-- Dispatch result of material 7 at strain `s`: the strain reaches the
correlation unclamped. -/
noncomputable def meC3 (s : ℝ) : MatEval :=
  { j_crit_sc := s, j_crit_cable := s, icrit := s, j_crit_str_tf := s,
    strain_used := s, bc20m := some 0, tc0m := some 0, c0 := none,
    tmarg_bi2212 := none }

lemma dispatch_eval_C3 (s : ℝ) :
    superconDispatch libC3 (glbC3 s) 1 1 5 0 0 1 7 1 4 0 0 =
      (Except.ok (meC3 s), []) := by
  simp only [superconDispatch, libC3, libZero]
  norm_num [superconStrain, superconFcond, superconFhetot, glbC3, glbZero,
    mkMatEval, meC3]

/-- The secant iteration on `t - 4` seeded at 4 and 8 returns the root 4. -/
lemma secant_root4 :
    scipyNewtonSecant (fun t => t - (4:ℝ)) 4 (2 * 4) 1e-6 1e-6 50 =
      Except.ok 4 := by
  rw [scipyNewtonSecant, if_neg (by norm_num : ¬ (2 * 4 : ℝ) = 4)]
  norm_num
  rw [show (50:ℕ) = 49 + 1 from rfl, secantLoop_succ]
  norm_num
  rw [show (49:ℕ) = 48 + 1 from rfl, secantLoop_succ]
  norm_num

/-- Output of the material-7 run at strain `s`. -/
noncomputable def outC3 (s : ℝ) : SCOut :=
  { j_tf_wp_critical := s, vd := 2, tmarg := 0, j_crit_str_tf := s,
    temp_margin_written := some 0, jwdgpro := 0 }

lemma supercon_eval_C3 (s : ℝ) :
    supercon libC3 (glbC3 s) 1 1 5 0 0 1 1 7 1 1 1 4 104 0 0 =
      (Except.ok (outC3 s), []) := by
  have hf : superconNewtonFn libC3 7 (superconJsc 1 (meC3 s)) 5 (meC3 s) =
      fun t => t - (4:ℝ) := by
    funext t
    simp [superconNewtonFn, libC3, libZero]
  have hfc : superconFcond (glbC3 s) 0 1 = 1 := by
    norm_num [superconFcond, superconFhetot, glbC3, glbZero]
  simp only [supercon, dispatch_eval_C3]
  rw [if_pos (show (7:ℤ) = 1 ∨ (7:ℤ) = 3 ∨ (7:ℤ) = 4 ∨ (7:ℤ) = 5 ∨ True ∨
      (7:ℤ) = 8 ∨ (7:ℤ) = 9 from
      Or.inr (Or.inr (Or.inr (Or.inr (Or.inl trivial))))),
    hf, secant_root4, hfc, protect_eval_3]
  norm_num [outC3, meC3]

/-- C3 counterexample: for material 7 (Durham Ginzburg-Landau Nb-Ti, a
metallic low-temperature variant) a strain of magnitude 0.8e-2 is neither
reported nor clamped: the run reports no diagnostic at all and its result
differs from the result of the run with strain `sign(strain) * 0.5e-2`,
refuting the claim that every material variant clamps. -/
theorem supercon_strain_unclamped_gl_nbti :
    ((supercon libC3 (glbC3 0.008) 1 1 5 0 0 1 1 7 1 1 1 4 104 0 0).1 ≠
      (supercon libC3 (glbC3 (npSign 0.008 * 0.5e-2)) 1 1 5 0 0 1 1 7 1 1 1 4
        104 0 0).1) ∧
    (supercon libC3 (glbC3 0.008) 1 1 5 0 0 1 1 7 1 1 1 4 104 0 0).2 = [] := by
  have he : npSign (0.008:ℝ) * 0.5e-2 = 0.005 := by norm_num [npSign]
  rw [he, supercon_eval_C3 0.008, supercon_eval_C3 0.005]
  constructor
  · intro h
    simp only [outC3, Except.ok.injEq, SCOut.mk.injEq] at h
    norm_num at h
  · rfl

/-! ## Inductive quench-stress model

Module-level `vv_stress_on_quench` and its helpers `lambda_term`,
`_theta_factor_integral` (the leading underscore is dropped) and
`_inductance_factor` (superconducting_tf_coil.py, lines 2311-2558). -/

/-- Physical constant `constants.rmu0` (vacuum permeability,
`4e-7 * pi`). -/
noncomputable def rmu0 : ℝ := 4e-7 * Real.pi

/-- `lambda_term` (lines 2312-2334): the closed form of the arc integral,
with the branch selected by the sign of `1 - omega^2`. -/
noncomputable def lambda_term (tau omega : ℝ) : ℝ :=
  let p := 1 - omega ^ 2
  if p < 0 then
    (1 / Real.sqrt |p|) * Real.arcsin ((1 + omega * tau) / (tau + omega))
  else
    (1 / Real.sqrt |p|) *
      Real.log ((2 * (1 + tau * omega - Real.sqrt (p * (1 - tau ^ 2)))) /
        (tau + omega))

/-- The `r1` of `_theta_factor_integral`. -/
noncomputable def theta_r1 (ro_vv ri_vv rm_vv h_vv theta1_vv : ℝ) : ℝ :=
  let a := (ro_vv - ri_vv) / 2
  let rbar := (ro_vv + ri_vv) / 2
  let delta := (rbar - rm_vv) / a
  let kappa := h_vv / a
  let iota := (1 + delta) / kappa
  let denom := Real.cos theta1_vv + Real.sin theta1_vv - 1
  h_vv * ((Real.cos theta1_vv + iota * (Real.sin theta1_vv - 1)) / denom)

/-- The `r2` of `_theta_factor_integral`. -/
noncomputable def theta_r2 (ro_vv ri_vv rm_vv h_vv theta1_vv : ℝ) : ℝ :=
  let a := (ro_vv - ri_vv) / 2
  let rbar := (ro_vv + ri_vv) / 2
  let delta := (rbar - rm_vv) / a
  let kappa := h_vv / a
  let iota := (1 + delta) / kappa
  let denom := Real.cos theta1_vv + Real.sin theta1_vv - 1
  h_vv * ((Real.cos theta1_vv - 1 + iota * Real.sin theta1_vv) / denom)

/-- The `r3` of `_theta_factor_integral`. -/
noncomputable def theta_r3 (ro_vv ri_vv rm_vv h_vv : ℝ) : ℝ :=
  let a := (ro_vv - ri_vv) / 2
  let rbar := (ro_vv + ri_vv) / 2
  let delta := (rbar - rm_vv) / a
  let kappa := h_vv / a
  h_vv * (1 - delta) / kappa

/-- The `zc3` of `_theta_factor_integral`:
`zc2 + r2 - r3` with `zc2 = (r1 - r2) * sin(theta1)`. -/
noncomputable def theta_zc3 (ro_vv ri_vv rm_vv h_vv theta1_vv : ℝ) : ℝ :=
  (theta_r1 ro_vv ri_vv rm_vv h_vv theta1_vv -
    theta_r2 ro_vv ri_vv rm_vv h_vv theta1_vv) * Real.sin theta1_vv +
  theta_r2 ro_vv ri_vv rm_vv h_vv theta1_vv - theta_r3 ro_vv ri_vv rm_vv h_vv

/-- `_theta_factor_integral` (lines 2337-2390). -/
noncomputable def theta_factor_integral (ro_vv ri_vv rm_vv h_vv theta1_vv : ℝ) :
    ℝ :=
  let theta2 := Real.pi / 2 + theta1_vv
  let a := (ro_vv - ri_vv) / 2
  let rbar := (ro_vv + ri_vv) / 2
  let kappa := h_vv / a
  let r1 := theta_r1 ro_vv ri_vv rm_vv h_vv theta1_vv
  let r2 := theta_r2 ro_vv ri_vv rm_vv h_vv theta1_vv
  let r3 := theta_r3 ro_vv ri_vv rm_vv h_vv
  let rc1 := (h_vv / kappa) * ((rbar / a) + 1) - r1
  let rc2 := rc1 + (r1 - r2) * Real.cos theta1_vv
  let rc3 := rc2
  let zc3 := theta_zc3 ro_vv ri_vv rm_vv h_vv theta1_vv
  let omega1 := rc1 / r1
  let omega2 := rc2 / r2
  let omega3 := rc3 / r3
  let chi1 := (zc3 + |(-zc3)|) / ri_vv
  let chi2 :=
    |lambda_term 1 omega1 - lambda_term (Real.cos theta1_vv) omega1| +
    |lambda_term (Real.cos theta1_vv) omega2 -
      lambda_term (Real.cos (theta1_vv + theta2)) omega2| +
    |lambda_term (Real.cos (theta1_vv + theta2)) omega3 - lambda_term (-1) omega3|
  (chi1 + 2 * chi2) / (2 * Real.pi)

/-- `_inductance_factor` (lines 2526-2558). -/
noncomputable def inductance_factor (H ri ro rm theta1 : ℝ) : ℝ :=
  let major_radius := (ro + ri) / 2
  let minor_radius := (ro - ri) / 2
  let aspect_ratio := major_radius / minor_radius
  let triangularity := (major_radius - rm) / minor_radius
  let elongation := H / minor_radius
  4.933 + 0.03728 * elongation + 0.06980 * triangularity - 3.551 * aspect_ratio +
    0.7629 * aspect_ratio ^ 2 - 0.06298 * (theta1 / 90)

/-- The arguments of the module-level `vv_stress_on_quench`. -/
structure VVIn where
  H_coil : ℝ
  ri_coil : ℝ
  ro_coil : ℝ
  rm_coil : ℝ
  ccl_length_coil : ℝ
  theta1_coil : ℝ
  H_vv : ℝ
  ri_vv : ℝ
  ro_vv : ℝ
  rm_vv : ℝ
  theta1_vv : ℝ
  n_tf_coils : ℝ
  n_tf_coil_turns : ℝ
  s_rp : ℝ
  s_cc : ℝ
  taud : ℝ
  i_op : ℝ
  d_vv : ℝ

/-- The vessel theta factor (line 2478, with the degree-to-radian
conversion of line 2475). -/
noncomputable def vvThetaVV (g : VVIn) : ℝ :=
  theta_factor_integral g.ro_vv g.ri_vv g.rm_vv g.H_vv
    (Real.pi * (g.theta1_vv / 180))

/-- `plr_coil` (line 2479). -/
noncomputable def vvPlrCoil (g : VVIn) : ℝ :=
  ((0.5 * g.ccl_length_coil) / (g.n_tf_coils * (g.s_cc + g.s_rp))) * 1e-6

/-- `plr_vv` (line 2480). -/
noncomputable def vvPlrVV (g : VVIn) : ℝ := ((0.84 / g.d_vv) * vvThetaVV g) * 1e-6

/-- `coil_structure_self_inductance` (lines 2483-2487). -/
noncomputable def vvLcs (g : VVIn) : ℝ :=
  (rmu0 / Real.pi) * g.H_coil *
    inductance_factor g.H_coil g.ri_coil g.ro_coil g.rm_coil g.theta1_coil

/-- `vv_self_inductance` (lines 2488-2492). -/
noncomputable def vvLvv (g : VVIn) : ℝ :=
  (rmu0 / Real.pi) * g.H_vv *
    inductance_factor g.H_vv g.ri_vv g.ro_vv g.rm_vv g.theta1_vv

/-- `lambda0 = 1 / taud` (line 2495). -/
noncomputable def vvLambda0 (g : VVIn) : ℝ := 1 / g.taud

/-- `lambda1` (line 2496). -/
noncomputable def vvLambda1 (g : VVIn) : ℝ := vvPlrCoil g / vvLcs g

/-- `lambda2` (line 2497). -/
noncomputable def vvLambda2 (g : VVIn) : ℝ := vvPlrVV g / vvLvv g

/-- `tmaxforce` (line 2500): the time of peak induced force.  The division
is UNGUARDED in the source: `lambda1 == lambda0` silently divides by
zero. -/
noncomputable def vvTmaxforce (g : VVIn) : ℝ :=
  Real.log ((vvLambda0 g + vvLambda1 g) / (2 * vvLambda0 g)) /
    (vvLambda1 g - vvLambda0 g)

/-- `i0` (line 2502). -/
noncomputable def vvI0 (g : VVIn) : ℝ :=
  g.i_op * Real.exp (-vvLambda0 g * vvTmaxforce g)

/-- `i1` (lines 2503-2512). -/
noncomputable def vvI1 (g : VVIn) : ℝ :=
  vvLambda0 g * g.n_tf_coils * g.n_tf_coil_turns * g.i_op *
    ((Real.exp (-vvLambda1 g * vvTmaxforce g) -
      Real.exp (-vvLambda0 g * vvTmaxforce g)) / (vvLambda0 g - vvLambda1 g))

/-- `i2` (line 2513). -/
noncomputable def vvI2 (g : VVIn) : ℝ := (vvLambda1 g / vvLambda2 g) * vvI1 g

/-- `a_vv` (line 2515). -/
noncomputable def vvAVV (g : VVIn) : ℝ :=
  (g.ro_vv + g.ri_vv) / (g.ro_vv - g.ri_vv)

/-- `b_vvi` (lines 2516-2518). -/
noncomputable def vvBVVI (g : VVIn) : ℝ :=
  (rmu0 * (g.n_tf_coils * g.n_tf_coil_turns * vvI0 g + vvI1 g + vvI2 g / 2)) /
    (2 * Real.pi * g.ri_vv)

/-- `j_vvi` (line 2519). -/
noncomputable def vvJVVI (g : VVIn) : ℝ :=
  vvI2 g / (2 * Real.pi * g.d_vv * g.ri_vv)

/-- `zeta` (line 2521). -/
noncomputable def vvZeta (g : VVIn) : ℝ :=
  1 + ((vvAVV g - 1) * Real.log ((vvAVV g + 1) / (vvAVV g - 1)) / (2 * vvAVV g))

/-- The value returned at line 2523. -/
noncomputable def vvStressValue (g : VVIn) : ℝ :=
  vvZeta g * vvBVVI g * vvJVVI g * g.ri_vv

/-- Module-level `vv_stress_on_quench` (lines 2393-2523).  The body
contains no `raise` statement and no guard, so the embedding of its error
behavior is: it always returns. -/
noncomputable def vv_stress_on_quench (g : VVIn) : Except PErr ℝ :=
  Except.ok (vvStressValue g)

/-- C1: the time of peak induced force is computed by the closed form
`t* = log((lambda0+lambda1)/(2*lambda0)) / (lambda1 - lambda0)`, but the
singular case `lambda1 == lambda0` is NOT detected: for every geometry
there is a dump time (`taud = Lcs / plr_coil`) forcing
`lambda1 = lambda0`, and even there `vv_stress_on_quench` raises no error
and returns normally (in floating point the unguarded division produces
`inf`/`nan` silently), contradicting the claimed hard failure. -/
theorem vv_quench_singularity_unguarded (g : VVIn) :
    vvTmaxforce g = Real.log ((vvLambda0 g + vvLambda1 g) / (2 * vvLambda0 g)) /
      (vvLambda1 g - vvLambda0 g) ∧
    vvLambda1 { g with taud := vvLcs g / vvPlrCoil g } =
      vvLambda0 { g with taud := vvLcs g / vvPlrCoil g } ∧
    (vv_stress_on_quench { g with taud := vvLcs g / vvPlrCoil g }).isOk = true := by
  refine ⟨rfl, ?_, rfl⟩
  show vvPlrCoil g / vvLcs g = 1 / (vvLcs g / vvPlrCoil g)
  rw [one_div_div]

/-- Positivity of the vacuum permeability constant. -/
lemma rmu0_pos : 0 < rmu0 := by
  unfold rmu0
  positivity

/-- The peak-force time is strictly positive whenever the two decay
constants are positive and distinct (in both orderings the signs of the
logarithm and of the denominator agree). -/
lemma tmaxforce_pos (l0 l1 : ℝ) (h0 : 0 < l0) (h1 : 0 < l1) (hne : l1 ≠ l0) :
    0 < Real.log ((l0 + l1) / (2 * l0)) / (l1 - l0) := by
  rcases lt_or_gt_of_ne hne with h | h
  · apply div_pos_of_neg_of_neg
    · apply Real.log_neg
      · positivity
      · rw [div_lt_one (by positivity)]
        linarith
    · linarith
  · apply div_pos
    · apply Real.log_pos
      rw [lt_div_iff (by positivity)]
      linarith
    · linarith

/-- The exponential-difference factor of `i1` is positive for positive
times and distinct decay constants. -/
lemma i1fac_pos (l0 l1 t : ℝ) (ht : 0 < t) (hne : l1 ≠ l0) :
    0 < (Real.exp (-l1 * t) - Real.exp (-l0 * t)) / (l0 - l1) := by
  rcases lt_or_gt_of_ne hne with h | h
  · apply div_pos
    · have := Real.exp_lt_exp.mpr (show -l0 * t < -l1 * t by nlinarith)
      linarith
    · linarith
  · apply div_pos_of_neg_of_neg
    · have := Real.exp_lt_exp.mpr (show -l1 * t < -l0 * t by nlinarith)
      linarith
    · linarith

lemma vvZeta_pos (g : VVIn) (hri : 0 < g.ri_vv) (hro : g.ri_vv < g.ro_vv) :
    0 < vvZeta g := by
  unfold vvZeta vvAVV
  have hden : (0:ℝ) < g.ro_vv - g.ri_vv := by linarith
  set a := (g.ro_vv + g.ri_vv) / (g.ro_vv - g.ri_vv) with hadef
  have ha : 1 < a := by
    rw [hadef, lt_div_iff hden]
    linarith
  have hlog : 0 ≤ Real.log ((a + 1) / (a - 1)) := by
    apply Real.log_nonneg
    rw [le_div_iff (by linarith)]
    linarith
  have hterm : 0 ≤ (a - 1) * Real.log ((a + 1) / (a - 1)) / (2 * a) := by
    apply div_nonneg
    · exact mul_nonneg (by linarith) hlog
    · linarith
  linarith

lemma vvI1_pos (g : VVIn) (hl0 : 0 < vvLambda0 g) (hl1 : 0 < vvLambda1 g)
    (hne : vvLambda1 g ≠ vvLambda0 g) (hN : 0 < g.n_tf_coils)
    (hn : 0 < g.n_tf_coil_turns) (hiop : 0 < g.i_op) : 0 < vvI1 g := by
  have htpos : 0 < vvTmaxforce g :=
    tmaxforce_pos (vvLambda0 g) (vvLambda1 g) hl0 hl1 hne
  have hfac := i1fac_pos (vvLambda0 g) (vvLambda1 g) (vvTmaxforce g) htpos hne
  unfold vvI1
  exact mul_pos (mul_pos (mul_pos (mul_pos hl0 hN) hn) hiop) hfac

lemma vvTheta_dvv (g : VVIn) (d : ℝ) :
    vvThetaVV { g with d_vv := d } = vvThetaVV g := rfl

lemma vvLambda0_dvv (g : VVIn) (d : ℝ) :
    vvLambda0 { g with d_vv := d } = vvLambda0 g := rfl

lemma vvLambda1_dvv (g : VVIn) (d : ℝ) :
    vvLambda1 { g with d_vv := d } = vvLambda1 g := rfl

lemma vvLvv_dvv (g : VVIn) (d : ℝ) :
    vvLvv { g with d_vv := d } = vvLvv g := rfl

lemma vvI0_dvv (g : VVIn) (d : ℝ) : vvI0 { g with d_vv := d } = vvI0 g := rfl

lemma vvI1_dvv (g : VVIn) (d : ℝ) : vvI1 { g with d_vv := d } = vvI1 g := rfl

lemma vvZeta_dvv (g : VVIn) (d : ℝ) : vvZeta { g with d_vv := d } = vvZeta g := rfl

/-- Core monotonicity computation: for a positive, nonsingular design
point, the Tresca stress is strictly increasing in the vessel shell
thickness `d_vv` (the induced vessel current `i2` grows linearly with
`d_vv` while the vessel current density `j_vvi` stays constant, so the
field term `b_vvi`, and with it the stress, grows). -/
lemma vvStress_strict_mono (g : VVIn) (d2 : ℝ)
    (hl0 : 0 < vvLambda0 g) (hl1 : 0 < vvLambda1 g)
    (hne : vvLambda1 g ≠ vvLambda0 g)
    (hth : 0 < vvThetaVV g) (hLvv : 0 < vvLvv g)
    (hri : 0 < g.ri_vv) (hro : g.ri_vv < g.ro_vv)
    (hN : 0 < g.n_tf_coils) (hn : 0 < g.n_tf_coil_turns) (hiop : 0 < g.i_op)
    (hd : 0 < g.d_vv) (hdd : g.d_vv < d2) :
    vvStressValue g < vvStressValue { g with d_vv := d2 } := by
  have hi1 : 0 < vvI1 g := vvI1_pos g hl0 hl1 hne hN hn hiop
  have hi0 : 0 < vvI0 g := by
    unfold vvI0
    positivity
  have hz : 0 < vvZeta g := vvZeta_pos g hri hro
  set K := vvLambda1 g * vvLvv g * vvI1 g / (0.84 * vvThetaVV g * 1e-6) with hKdef
  have hK : 0 < K := by
    rw [hKdef]
    positivity
  have key : ∀ d : ℝ, d ≠ 0 → vvStressValue { g with d_vv := d } =
      vvZeta g * ((rmu0 * (g.n_tf_coils * g.n_tf_coil_turns * vvI0 g + vvI1 g +
        K * d / 2)) / (2 * Real.pi * g.ri_vv)) * (K / (2 * Real.pi * g.ri_vv)) *
      g.ri_vv := by
    intro d hdne
    rw [hKdef]
    unfold vvStressValue vvBVVI vvJVVI vvI2 vvLambda2 vvPlrVV
    simp only [vvZeta_dvv, vvI0_dvv, vvI1_dvv, vvLambda1_dvv, vvLvv_dvv,
      vvTheta_dvv]
    field_simp
    ring
  have heta : vvStressValue g = vvStressValue { g with d_vv := g.d_vv } := rfl
  rw [heta, key g.d_vv (ne_of_gt hd), key d2 (ne_of_gt (lt_trans hd hdd))]
  have h2pr : (0:ℝ) < 2 * Real.pi * g.ri_vv := by positivity
  have hA : rmu0 * (g.n_tf_coils * g.n_tf_coil_turns * vvI0 g + vvI1 g +
      K * g.d_vv / 2) < rmu0 * (g.n_tf_coils * g.n_tf_coil_turns * vvI0 g +
      vvI1 g + K * d2 / 2) := by
    nlinarith [mul_pos rmu0_pos (mul_pos hK (sub_pos.mpr hdd))]
  apply mul_lt_mul_of_pos_right _ hri
  apply mul_lt_mul_of_pos_right _ (div_pos hK h2pr)
  apply mul_lt_mul_of_pos_left _ hz
  exact (div_lt_div_right h2pr).mpr hA

/-- A concrete symmetric (double-null-like) geometry; `d` is the vessel
shell thickness `d_vv`. -/
noncomputable def gC5 (d : ℝ) : VVIn :=
  { H_coil := 2, ri_coil := 1, ro_coil := 3, rm_coil := 2,
    ccl_length_coil := 10, theta1_coil := 45,
    H_vv := 2, ri_vv := 1, ro_vv := 3, rm_vv := 2, theta1_vv := 45,
    n_tf_coils := 16, n_tf_coil_turns := 1, s_rp := 1, s_cc := 0,
    taud := 1, i_op := 1, d_vv := d }

lemma pi_cancel : (4e-7 * Real.pi) / Real.pi = 4e-7 := by
  rw [mul_div_assoc, div_self Real.pi_ne_zero, mul_one]

lemma vvLambda0_gC5 (d : ℝ) : vvLambda0 (gC5 d) = 1 := by
  norm_num [vvLambda0, gC5]

lemma vvLambda1_gC5 (d : ℝ) : vvLambda1 (gC5 d) = 78125 / 185134 := by
  unfold vvLambda1 vvPlrCoil vvLcs inductance_factor rmu0 gC5
  rw [pi_cancel]
  norm_num

lemma vvLvv_gC5_pos (d : ℝ) : 0 < vvLvv (gC5 d) := by
  unfold vvLvv inductance_factor rmu0 gC5
  rw [pi_cancel]
  norm_num

/-- The theta factor is positive as soon as `ri_vv > 0` and the arc-join
height `zc3` is positive: `chi1 = 2 * zc3 / ri_vv > 0` while `chi2`, a sum
of absolute values, is nonnegative. -/
lemma theta_factor_integral_pos (ro ri rm h θ1 : ℝ) (hri : 0 < ri)
    (hz : 0 < theta_zc3 ro ri rm h θ1) :
    0 < theta_factor_integral ro ri rm h θ1 := by
  simp only [theta_factor_integral]
  apply div_pos _ (by positivity)
  rw [abs_neg, abs_of_pos hz]
  positivity

lemma theta_zc3_gC5 : theta_zc3 3 1 2 2 (Real.pi * (45 / 180)) = 1 := by
  rw [show Real.pi * ((45:ℝ) / 180) = Real.pi / 4 by ring]
  unfold theta_zc3 theta_r1 theta_r2 theta_r3
  rw [Real.cos_pi_div_four, Real.sin_pi_div_four]
  have h2 : (1:ℝ) < Real.sqrt 2 := by
    rw [show (1:ℝ) = Real.sqrt 1 from Real.sqrt_one.symm]
    exact Real.sqrt_lt_sqrt (by norm_num) (by norm_num)
  have hden : Real.sqrt 2 / 2 + Real.sqrt 2 / 2 - 1 ≠ 0 := by
    intro h
    nlinarith
  have hden2 : (-16 + Real.sqrt 2 * 16 : ℝ) ≠ 0 := by nlinarith
  field_simp [hden2]
  have hv : (-16 + Real.sqrt 2 * 16) * (-16 + Real.sqrt 2 * 16)⁻¹ = 1 :=
    mul_inv_cancel₀ hden2
  linear_combination 16 * hv

lemma vvTheta_gC5_pos (d : ℝ) : 0 < vvThetaVV (gC5 d) := by
  have he : vvThetaVV (gC5 d) =
      theta_factor_integral 3 1 2 2 (Real.pi * (45 / 180)) := rfl
  rw [he]
  refine theta_factor_integral_pos 3 1 2 2 _ (by norm_num) ?_
  rw [theta_zc3_gC5]
  norm_num

/-- C5 counterexample: at a fully valid positive design point, increasing
the vessel shell thickness from 1 to 2 strictly INCREASES the Tresca
stress, refuting the claimed monotone decrease. -/
theorem vv_stress_dvv_counterexample :
    vvStressValue (gC5 1) < vvStressValue (gC5 2) := by
  have h := vvStress_strict_mono (gC5 1) 2
    (by rw [vvLambda0_gC5]; norm_num)
    (by rw [vvLambda1_gC5]; norm_num)
    (by rw [vvLambda1_gC5, vvLambda0_gC5]; norm_num)
    (vvTheta_gC5_pos 1)
    (vvLvv_gC5_pos 1)
    (by norm_num [gC5]) (by norm_num [gC5]) (by norm_num [gC5])
    (by norm_num [gC5]) (by norm_num [gC5]) (by norm_num [gC5])
    (by norm_num [gC5])
  exact h

/-- C5 (amended): holding every other argument fixed at valid positive
values (positive decay constants `lambda0`, `lambda1` with
`lambda1 ≠ lambda0`, positive theta factor, vessel inductance, radii with
`ri_vv < ro_vv`, coil counts, operating current and shell thickness),
increasing the vacuum-vessel shell thickness `d_vv` strictly INCREASES the
returned Tresca stress — the opposite direction of the original claim. -/
theorem vv_stress_dvv_monotone (g : VVIn) (d2 : ℝ)
    (hl0 : 0 < vvLambda0 g) (hl1 : 0 < vvLambda1 g)
    (hne : vvLambda1 g ≠ vvLambda0 g)
    (hth : 0 < vvThetaVV g) (hLvv : 0 < vvLvv g)
    (hri : 0 < g.ri_vv) (hro : g.ri_vv < g.ro_vv)
    (hN : 0 < g.n_tf_coils) (hn : 0 < g.n_tf_coil_turns) (hiop : 0 < g.i_op)
    (hd : 0 < g.d_vv) (hdd : g.d_vv < d2) :
    vvStressValue g < vvStressValue { g with d_vv := d2 } :=
  vvStress_strict_mono g d2 hl0 hl1 hne hth hLvv hri hro hN hn hiop hd hdd

/-- C5 witness: the amended monotone increase at the concrete design
point. -/
theorem vv_stress_dvv_monotone_witness :
    vvStressValue (gC5 1) < vvStressValue { gC5 1 with d_vv := 2 } :=
  vv_stress_dvv_monotone (gC5 1) 2
    (by rw [vvLambda0_gC5]; norm_num)
    (by rw [vvLambda1_gC5]; norm_num)
    (by rw [vvLambda1_gC5, vvLambda0_gC5]; norm_num)
    (vvTheta_gC5_pos 1)
    (vvLvv_gC5_pos 1)
    (by norm_num [gC5]) (by norm_num [gC5]) (by norm_num [gC5])
    (by norm_num [gC5]) (by norm_num [gC5]) (by norm_num [gC5])
    (by norm_num [gC5])

end Process
